import Mathlib

/-!
# autoshift: the control window (src/controlwindow.cpp)

A shallow embedding of ControlWindow: the key table and its rendering
(addToTable, insertRow), the selection handler (updateTable) with its
completion handler, the sign-in handlers (login, loggedin, the redeem button)
and the parser registry (registerParser).

The window is a record of the widget and member state the handlers read and
write. Calls into collaborators that are not part of this file of the program
(the shift client, the database behind the collection, the parser running in a
worker thread) are recorded in the state as call logs, and what they return is
an input of the handler.  The GUI branch of the constructor is the one
embedded (the spinner exists and loggedin is connected).  The lines the
handlers write through the DEBUG logger are left out; the logger callback
itself is logging_cb.
-/

namespace Autoshift

/-! ## Data model -/

/-- Modelled from the spec: the Game enumeration is declared outside
controlwindow.cpp.  The code only names the sentinel Game::NONE; every other
enumerator is represented by a number. -/
inductive Game where
  | NONE
  | id (n : Nat)
  deriving DecidableEq, Repr

/-- Modelled from the spec: the Platform enumeration is declared outside
controlwindow.cpp.  The code only names the sentinel Platform::NONE; every
other enumerator is represented by a number. -/
inductive Platform where
  | NONE
  | id (n : Nat)
  deriving DecidableEq, Repr

/-- Modelled from the spec: the result type of the shift client's redeem,
declared outside controlwindow.cpp; the enumerators are those of section 6. -/
inductive Status where
  | Success
  | AlreadyRedeemed
  | Expired
  | Invalid
  | RateLimited
  | NetworkError
  deriving DecidableEq, Repr

/-- A shift code as insertRow reads it: redeemed(), desc(), code(),
expires(). -/
structure ShiftCode where
  redeemed : Bool
  desc : String
  code : String
  expires : String
  deriving DecidableEq, Repr

/-- A CodeParser pointer: none is the null pointer, some n the address of a
parser object. -/
abbrev CodeParserPtr := Option Nat

/-- One row of keyTable (columns 0 to 3).  Column 0 holds the cell widget (a
disabled check box, given by its checked state), columns 1 to 3 hold items;
none is an empty cell. -/
structure Row where
  cellWidget0 : Option Bool
  item1 : Option String
  item2 : Option String
  item3 : Option String
  deriving DecidableEq, Repr

/-- An empty row, as QTableWidget creates them. -/
def Row.empty : Row := ⟨none, none, none, none⟩

/-- The row insertRow writes for a code. -/
def rowOf (c : ShiftCode) : Row :=
  ⟨some c.redeemed, some c.desc, some c.code, some c.expires⟩

/-! ## QTableWidget -/

/-- QTableWidget::setRowCount: rows past the new count are removed, missing
rows are appended empty; the rows that stay keep their content. -/
def setRowCount (t : List Row) (n : Nat) : List Row :=
  t.take n ++ List.replicate (n - t.length) Row.empty

/-- QTableWidget::insertRow: an empty row at position i; nothing happens
when i is past the end. -/
def tableInsertRow (t : List Row) (i : Nat) : List Row :=
  if i ≤ t.length then t.take i ++ Row.empty :: t.drop i else t

/-- QTableWidget::setCellWidget in column 0; nothing happens for a row that
does not exist. -/
def setCellWidget0 (t : List Row) (i : Nat) (checked : Bool) : List Row :=
  t.modify (fun r => { r with cellWidget0 := some checked }) i

/-- QTableWidget::setItem; nothing happens for a cell that does not exist. -/
def setItem (t : List Row) (i : Nat) (col : Nat) (text : String) : List Row :=
  t.modify (fun r =>
    match col with
    | 1 => { r with item1 := some text }
    | 2 => { r with item2 := some text }
    | 3 => { r with item3 := some text }
    | _ => r) i

/-! ## QComboBox -/

/-- An entry of a drop-down: its text and its icon (none when added without
one). -/
structure ComboItem where
  icon : Option Nat
  text : String
  deriving DecidableEq, Repr

/-- The search of QComboBox::findText from position i on. -/
def findTextFrom : List ComboItem → String → Nat → Int
  | [], _, _ => -1
  | it :: rest, t, i => if it.text = t then (i : Int) else findTextFrom rest t (i + 1)

/-- QComboBox::findText: the index of the first entry with that exact text,
-1 when there is none. -/
def findText (items : List ComboItem) (t : String) : Int :=
  findTextFrom items t 0

/-! ## QMap -/

/-- A QMap as an association list with one entry per key. -/
abbrev QMap (K V : Type) := List (K × V)

/-- QMap::contains. -/
def QMap.contains {K V : Type} [DecidableEq K] (m : QMap K V) (k : K) : Bool :=
  m.any (fun e => decide (e.1 = k))

/-- QMap::insert: the value of an existing key is replaced, a new key gets a
new entry. -/
def QMap.insert {K V : Type} [DecidableEq K] : QMap K V → K → V → QMap K V
  | [], k, v => [(k, v)]
  | (k0, v0) :: rest, k, v =>
    if k0 = k then (k, v) :: rest else (k0, v0) :: QMap.insert rest k v

/-- The entry of a key, when there is one (what a const lookup sees). -/
def QMap.find {K V : Type} [DecidableEq K] (m : QMap K V) (k : K) : Option V :=
  (List.find? (fun e => decide (e.1 = k)) m).map Prod.snd

/-- The non-const QMap::operator[]: the value of the key; when the key is
absent a default value is inserted first. -/
def QMap.index {K V : Type} [DecidableEq K] (m : QMap K V) (k : K) (dflt : V) :
    V × QMap K V :=
  match QMap.find m k with
  | some v => (v, m)
  | none => (dflt, QMap.insert m k dflt)

/-! ## The window -/

/-- A parser run handed to QtConcurrent::run together with its watcher.  The
lambda captures only the parser pointer p; game and platform record the
selection the run was started for. -/
structure ParseJob where
  game : Game
  platform : Platform
  p : CodeParserPtr
  deriving DecidableEq, Repr

/-- The state of the control window that the handlers read and write. -/
structure ControlWindow where
  /-- the member collection (insertion order) -/
  collection : List ShiftCode
  /-- the rows of ui->keyTable -/
  keyTable : List Row
  /-- the member parsers -/
  parsers : QMap Game (QMap Platform CodeParserPtr)
  /-- the entries of ui->dropDGame -/
  dropDGame : List ComboItem
  /-- the entries of ui->dropDPlatform -/
  dropDPlatform : List ComboItem
  /-- the game last written to FSETTINGS by updateTable -/
  selGame : Game
  /-- the platform last written to FSETTINGS by updateTable -/
  selPlatform : Platform
  /-- the file-level flag no_gui_out -/
  no_gui_out : Bool
  /-- the lines appended to ui->std_out -/
  std_out : List String
  /-- the message shown in the status bar -/
  statusMessage : Option String
  /-- ui->loginButton->isEnabled() -/
  loginButtonEnabled : Bool
  /-- the text of ui->loginButton -/
  loginButtonText : String
  /-- the text of pStatus -/
  pStatus : String
  /-- the spinner is started and not stopped -/
  spinning : Bool
  /-- the spinner has Qt::WA_TransparentForMouseEvents -/
  spinnerTransparent : Bool
  /-- whether the spinner widget (waitingspinnerwidget.h, not part of this
  file) disables its parent, the login button, while it spins -/
  spinnerDisablesParent : Bool
  /-- the parser runs started and not yet finished, oldest first -/
  jobs : List ParseJob
  /-- the calls of collection.commit(): the collection at each call -/
  commits : List (List ShiftCode)
  /-- the number of calls of sClient.login() -/
  loginCalls : Nat
  /-- the calls of sClient.redeem(): the code passed at each call -/
  redeemCalls : List String
  /-- the Status values the calls of sClient.redeem() returned -/
  statuses : List Status
  deriving DecidableEq, Repr

/-- The window after the constructor.  The form (ui_controlwindow.h) is not
part of this file; the widgets start as Qt creates them: an empty table, empty
drop-downs, the login button enabled.  Nothing is selected, no parser is
registered, no_gui_out is false. -/
def ControlWindow.initial (spinnerDisablesParent : Bool) : ControlWindow where
  collection := []
  keyTable := []
  parsers := []
  dropDGame := []
  dropDPlatform := []
  selGame := Game.NONE
  selPlatform := Platform.NONE
  no_gui_out := false
  std_out := []
  statusMessage := none
  loginButtonEnabled := true
  loginButtonText := "login"
  pStatus := ""
  spinning := false
  spinnerTransparent := false
  spinnerDisablesParent := spinnerDisablesParent
  jobs := []
  commits := []
  loginCalls := 0
  redeemCalls := []
  statuses := []

/-- The callback logging_cb installed on the loggers: the line goes to
std_out unless no_gui_out is set. -/
def logging_cb (s : ControlWindow) (str : String) : ControlWindow :=
  if s.no_gui_out then s else { s with std_out := s.std_out ++ [str] }

/-! ## Rendering -/

/-- ControlWindow::insertRow on the table: a row is inserted when i is not
below the row count, then the four cells of row i are set.  Row counts stay
far below 2^31, so the int and size_t counters are natural numbers. -/
def insertRow (t : List Row) (code : ShiftCode) (i : Nat) : List Row :=
  let c := t.length
  let t1 := if i ≥ c then tableInsertRow t i else t
  let t2 := setCellWidget0 t1 i code.redeemed
  let t3 := setItem t2 i 1 code.desc
  let t4 := setItem t3 i 2 code.code
  setItem t4 i 3 code.expires

/-- The loop of addToTable: the codes in the order the reverse iterator
yields them, the counter i going up. -/
def addToTableLoop : List ShiftCode → Nat → List Row → List Row
  | [], _, t => t
  | code :: rest, i, t => addToTableLoop rest (i + 1) (insertRow t code i)

/-- ControlWindow::addToTable: the row count is set to the size of the
collection and the collection is walked from rbegin() to rend(). -/
def addToTable (s : ControlWindow) : ControlWindow :=
  { s with keyTable :=
      addToTableLoop s.collection.reverse 0 (setRowCount s.keyTable s.collection.length) }

/-! ## Selection -/

/-- The lookup parsers[game][platform] in updateTable, both operator[]
non-const: the pointer found (null when the pair has no entry) and the map
with the default entries the lookup leaves behind. -/
def lookupParser (parsers : QMap Game (QMap Platform CodeParserPtr))
    (game : Game) (platform : Platform) :
    CodeParserPtr × QMap Game (QMap Platform CodeParserPtr) :=
  let (inner, parsers1) := QMap.index parsers game []
  let (p, inner1) := QMap.index inner platform none
  (p, QMap.insert parsers1 game inner1)

/-- ControlWindow::updateTable.  game and platform are tGame and tPlatform of
the current texts of the two drop-downs; queried is what
collection.query(platform, game, true) loads into the cleared collection.
The collection is cleared and the selection written to the settings; for a
NONE field the function returns there.  Otherwise the loaded codes are
rendered, the parser pointer is looked up, no_gui_out is set and a run of that
pointer is started. -/
def updateTable (s : ControlWindow) (game : Game) (platform : Platform)
    (queried : List ShiftCode) : ControlWindow :=
  let s1 := { s with collection := [], selPlatform := platform, selGame := game }
  if game = Game.NONE ∨ platform = Platform.NONE then s1
  else
    let s2 := addToTable { s1 with collection := queried }
    let (p, parsers1) := lookupParser s2.parsers game platform
    { s2 with
        parsers := parsers1
        no_gui_out := true
        jobs := s2.jobs ++ [⟨game, platform, p⟩] }

/-- The lambda connected to QFutureWatcher::finished for the run at position
idx: commit, render, delete the watcher, clear no_gui_out. -/
def finishedHandler (s : ControlWindow) (idx : Nat) : ControlWindow :=
  let s1 := { s with commits := s.commits ++ [s.collection] }
  let s2 := addToTable s1
  { s2 with jobs := s2.jobs.eraseIdx idx, no_gui_out := false }

/-- The end of the run at position idx: the worker shows the status message
for the result of parseKeys, then the finished handler runs.  Nothing happens
when there is no such run. -/
def jobFinished (s : ControlWindow) (idx : Nat) (worked : Bool) : ControlWindow :=
  if idx < s.jobs.length then
    let message := if worked then "Parsing complete" else "Parsing failed"
    finishedHandler { s with statusMessage := some message } idx
  else s

/-- A write of the worker thread: parseKeys holds a reference to the member
collection and may change it while the run lasts. -/
def workerWrites (s : ControlWindow) (c : List ShiftCode) : ControlWindow :=
  if s.jobs = [] then s else { s with collection := c }

/-- WaitingSpinnerWidget::start as far as the window sees it. -/
def spinnerStart (s : ControlWindow) : ControlWindow :=
  { s with
      spinning := true
      loginButtonEnabled := if s.spinnerDisablesParent then false else s.loginButtonEnabled }

/-- WaitingSpinnerWidget::stop as far as the window sees it. -/
def spinnerStop (s : ControlWindow) : ControlWindow :=
  { s with
      spinning := false
      loginButtonEnabled := if s.spinnerDisablesParent then true else s.loginButtonEnabled }

/-- ControlWindow::login. -/
def login (s : ControlWindow) : ControlWindow :=
  let s1 := { s with loginButtonText := "" }
  let s2 := spinnerStart s1
  let s3 := { s2 with loginCalls := s2.loginCalls + 1 }
  { s3 with spinnerTransparent := true }

/-- ControlWindow::loggedin; user is the setting read when v is true. -/
def loggedin (s : ControlWindow) (v : Bool) (user : String) : ControlWindow :=
  let s1 := spinnerStop s
  let s2 := { s1 with loginButtonEnabled := !v }
  let s3 := { s2 with loginButtonText := if v then "signed in" else "login" }
  if v then { s3 with pStatus := user } else s3

/-- The lambda connected to redeemButton released.  codeInput is the text of
ui->codeInput, st the Status the client returns if it is called. -/
def redeemReleased (s : ControlWindow) (codeInput : String) (st : Status) :
    ControlWindow :=
  if !s.loginButtonEnabled then
    { s with redeemCalls := s.redeemCalls ++ [codeInput], statuses := s.statuses ++ [st] }
  else s

/-! ## Registry -/

/-- ControlWindow::registerParser.  sGame and sPlatform are the name
functions of the two enumerations (declared outside this file); icon is none
for a null icon.  The currentIndexChanged signal of addItem is not followed:
parsers are registered before init() connects it. -/
def registerParser (sGame : Game → String) (sPlatform : Platform → String)
    (s : ControlWindow) (game : Game) (platform : Platform) (parser : CodeParserPtr)
    (icon : Option Nat) : ControlWindow :=
  let game_s := sGame game
  let platform_s := sPlatform platform
  let gameNew := decide (findText s.dropDGame game_s = -1)
  let dropDGame1 :=
    if gameNew then
      (if icon.isSome then s.dropDGame ++ [⟨icon, game_s⟩]
       else s.dropDGame ++ [⟨none, game_s⟩])
    else s.dropDGame
  let platformNew := decide (findText s.dropDPlatform platform_s = -1)
  let dropDPlatform1 :=
    if platformNew then s.dropDPlatform ++ [⟨none, platform_s⟩] else s.dropDPlatform
  let is_new := gameNew || platformNew
  let parsers1 :=
    if is_new then
      let m := if !QMap.contains s.parsers game then QMap.insert s.parsers game [] else s.parsers
      let (inner, m1) := QMap.index m game []
      QMap.insert m1 game (QMap.insert inner platform parser)
    else s.parsers
  { s with dropDGame := dropDGame1, dropDPlatform := dropDPlatform1, parsers := parsers1 }

/-- The parser pointer the map holds for (game, platform), when the pair has
an entry. -/
def parserOf (s : ControlWindow) (game : Game) (platform : Platform) :
    Option CodeParserPtr :=
  (QMap.find s.parsers game).bind (fun inner => QMap.find inner platform)

/-! ## Events -/

/-- What can happen to the window. -/
inductive Event where
  | register (game : Game) (platform : Platform) (parser : CodeParserPtr) (icon : Option Nat)
  | select (game : Game) (platform : Platform) (queried : List ShiftCode)
  | worker (c : List ShiftCode)
  | finished (idx : Nat) (worked : Bool)
  | login
  | loggedin (v : Bool) (user : String)
  | redeem (codeInput : String) (st : Status)
  | log (str : String)
  deriving DecidableEq, Repr

/-- One event handled. -/
def step (sGame : Game → String) (sPlatform : Platform → String)
    (s : ControlWindow) : Event → ControlWindow
  | Event.register g p q icon => registerParser sGame sPlatform s g p q icon
  | Event.select g p queried => updateTable s g p queried
  | Event.worker c => workerWrites s c
  | Event.finished idx worked => jobFinished s idx worked
  | Event.login => login s
  | Event.loggedin v user => loggedin s v user
  | Event.redeem c st => redeemReleased s c st
  | Event.log str => logging_cb s str

/-- A sequence of events handled in order. -/
def run (sGame : Game → String) (sPlatform : Platform → String)
    (s : ControlWindow) (evs : List Event) : ControlWindow :=
  evs.foldl (step sGame sPlatform) s

/-- The result of the latest sign-in completion, after one more event. -/
def completionStep (o : Option Bool) : Event → Option Bool
  | Event.loggedin v _ => some v
  | _ => o

/-- The result of the latest sign-in completion in a sequence of events,
none when there was no completion. -/
def lastCompletion (evs : List Event) : Option Bool :=
  evs.foldl completionStep none

/-- Whether a sign-in is pending, after one more event. -/
def pendingStep (b : Bool) : Event → Bool
  | Event.login => true
  | Event.loggedin _ _ => false
  | _ => b

/-- Whether a sign-in is pending after a sequence of events: login() was
called and no completion has arrived since. -/
def loginPending (evs : List Event) : Bool :=
  evs.foldl pendingStep false

/-- The sign-in widgets of two states agree. -/
def SameAuth (s t : ControlWindow) : Prop :=
  t.loginButtonEnabled = s.loginButtonEnabled ∧ t.spinning = s.spinning ∧
  t.loginButtonText = s.loginButtonText ∧ t.spinnerTransparent = s.spinnerTransparent ∧
  t.spinnerDisablesParent = s.spinnerDisablesParent

instance (s t : ControlWindow) : Decidable (SameAuth s t) := by
  unfold SameAuth
  infer_instance

/-- How the sign-in widgets follow the history: o is the latest completion,
b whether a sign-in is pending. -/
def AuthInv (s : ControlWindow) (o : Option Bool) (b : Bool) : Prop :=
  (s.loginButtonEnabled = false ↔
    (o = some true ∨ (b = true ∧ s.spinnerDisablesParent = true))) ∧
  (b = true → s.spinning = true ∧ s.loginButtonText = "" ∧ s.spinnerTransparent = true)

instance (s : ControlWindow) (o : Option Bool) (b : Bool) : Decidable (AuthInv s o b) := by
  unfold AuthInv
  infer_instance

/-- Example names of the games. -/
def sGameEx : Game → String
  | Game.NONE => ""
  | Game.id 0 => "bl1"
  | Game.id 1 => "bl2"
  | Game.id _ => "bl3"

/-- Example names of the platforms. -/
def sPlatformEx : Platform → String
  | Platform.NONE => ""
  | Platform.id 0 => "epic"
  | Platform.id 1 => "steam"
  | Platform.id _ => "psn"

/-- Example code A. -/
def codeA : ShiftCode := ⟨false, "5 golden keys", "AAAAA-AAAAA", "never"⟩

/-- Example code B. -/
def codeB : ShiftCode := ⟨true, "3 golden keys", "BBBBB-BBBBB", "2019-12-31"⟩

/-- Example code C. -/
def codeC : ShiftCode := ⟨false, "1 golden key", "CCCCC-CCCCC", "2020-01-31"⟩

/-- Two games G0, G1 and two platforms P0, P1, with a parser registered for
(G0, P0) and one for (G1, P1). -/
def twoParsers : List Event :=
  [Event.register (Game.id 0) (Platform.id 0) (some 1) none,
   Event.register (Game.id 1) (Platform.id 1) (some 2) none]

/-- The example run: events handled from the initial window, with the example
names. -/
def runEx (spinnerDisablesParent : Bool) (evs : List Event) : ControlWindow :=
  run sGameEx sPlatformEx (ControlWindow.initial spinnerDisablesParent) evs

/-! ## Rendering: proofs -/

theorem setRowCount_length (t : List Row) (n : Nat) : (setRowCount t n).length = n := by
  simp [setRowCount]
  omega

theorem insertRow_eq_set (t : List Row) (code : ShiftCode) (i : Nat) (h : i < t.length) :
    insertRow t code i = t.set i (rowOf code) := by
  have hc : ¬ (i ≥ t.length) := by omega
  simp only [insertRow, hc, if_false, setCellWidget0, setItem]
  induction t generalizing i with
  | nil => simp at h
  | cons r rest ih =>
    cases i with
    | zero => simp [List.modify, rowOf]
    | succ j =>
      have hj : j < rest.length := by simpa using h
      have hcj : ¬ (j ≥ rest.length) := by omega
      simpa [List.modify] using ih j hj hcj

theorem take_succ_set (t : List Row) (r : Row) (i : Nat) (h : i < t.length) :
    (t.set i r).take (i + 1) = t.take i ++ [r] := by
  induction t generalizing i with
  | nil => simp at h
  | cons a rest ih =>
    cases i with
    | zero => simp
    | succ j =>
      have hj : j < rest.length := by simpa using h
      simpa using ih j hj

theorem addToTableLoop_eq (rest : List ShiftCode) (i : Nat) (t : List Row)
    (h : i + rest.length = t.length) :
    addToTableLoop rest i t = t.take i ++ rest.map rowOf := by
  induction rest generalizing i t with
  | nil =>
    have hi : i = t.length := by simpa using h
    simp [addToTableLoop, hi]
  | cons c rest ih =>
    have hlt : i < t.length := by simp at h; omega
    have hlen : (i + 1) + rest.length = (t.set i (rowOf c)).length := by
      simp at h ⊢; omega
    rw [addToTableLoop, insertRow_eq_set t c i hlt, ih (i + 1) _ hlen,
      take_succ_set t (rowOf c) i hlt]
    simp

theorem addToTable_keyTable (s : ControlWindow) :
    (addToTable s).keyTable = s.collection.reverse.map rowOf := by
  have h : 0 + s.collection.reverse.length =
      (setRowCount s.keyTable s.collection.length).length := by
    simp [setRowCount_length]
  simp only [addToTable]
  rw [addToTableLoop_eq _ 0 _ h]
  simp

/-- C1: for every collection C and every prior content t of the key table,
after addToTable the table is the reversed collection mapped to rows: it has
exactly size(C) rows, row i is the row of the entry at position size(C)-1-i of
the insertion order, and nothing of t is left. -/
theorem addToTable_renders_reversed (s : ControlWindow) (C : List ShiftCode) (t : List Row) :
    (addToTable { s with collection := C, keyTable := t }).keyTable = C.reverse.map rowOf ∧
    (addToTable { s with collection := C, keyTable := t }).keyTable.length = C.length ∧
    ∀ i, i < C.length →
      (addToTable { s with collection := C, keyTable := t }).keyTable[i]? =
        (C[C.length - 1 - i]?).map rowOf := by
  have h := addToTable_keyTable { s with collection := C, keyTable := t }
  simp only at h
  refine ⟨h, ?_, ?_⟩
  · rw [h]; simp
  · intro i hi
    rw [h, List.getElem?_map, List.getElem?_reverse hi]

/-- C1, at a two-entry collection rendered over a table of three stale rows:
row 0 is the row of the entry inserted last. -/
theorem addToTable_renders_reversed_witness :
    (0 : Nat) < [codeA, codeB].length ∧
    (addToTable { ControlWindow.initial false with
        collection := [codeA, codeB],
        keyTable := [rowOf codeC, rowOf codeC, rowOf codeC] }).keyTable[0]? =
      some (rowOf codeB) :=
  ⟨by decide,
   (addToTable_renders_reversed (ControlWindow.initial false) [codeA, codeB]
      [rowOf codeC, rowOf codeC, rowOf codeC]).2.2 0 (by decide)⟩

/-! ## Selection: proofs -/

theorem addToTable_jobs (s : ControlWindow) : (addToTable s).jobs = s.jobs := rfl

/-- C5, the code at a failing input: parsers are registered for (G0, P0) and
(G1, P1) only, and (G0, P1) is selected.  The pair has no parser entry, yet a
run is started, on the null pointer the lookup returns, and no_gui_out is
set. -/
theorem unregistered_selection_runs_null_pointer :
    parserOf (runEx false twoParsers) (Game.id 0) (Platform.id 1) = none ∧
    (runEx false (twoParsers ++
      [Event.select (Game.id 0) (Platform.id 1) [codeA]])).jobs =
      [⟨Game.id 0, Platform.id 1, none⟩] ∧
    (runEx false (twoParsers ++
      [Event.select (Game.id 0) (Platform.id 1) [codeA]])).no_gui_out = true := by
  decide

/-- C6, the code at a failing input: a run for (G1, P1) is started while the
run for (G0, P0) is running, so no_gui_out is true just before it starts.
When the second run finishes, its handler leaves no_gui_out false while the
first run is still running. -/
theorem overlapping_job_clears_suppression :
    (runEx false (twoParsers ++
      [Event.select (Game.id 0) (Platform.id 0) [codeA]])).no_gui_out = true ∧
    (runEx false (twoParsers ++
      [Event.select (Game.id 0) (Platform.id 0) [codeA],
       Event.select (Game.id 1) (Platform.id 1) [codeB],
       Event.finished 1 true])).no_gui_out = false ∧
    (runEx false (twoParsers ++
      [Event.select (Game.id 0) (Platform.id 0) [codeA],
       Event.select (Game.id 1) (Platform.id 1) [codeB],
       Event.finished 1 true])).jobs = [⟨Game.id 0, Platform.id 0, some 1⟩] := by
  decide

/-- C7, refuted as stated: the run for (G0, P0) finishes after the selection
has changed.  First case: (G1, P1) is selected and the worker of the old run
has put code C into the collection; the handler re-renders, the table goes
from the row of B to the rows of C and B, and what it commits is the
collection of the displayed key.  Second case: (NONE, P0) is selected; the
table goes from one row to none. -/
theorem stale_completion_rerenders :
    (runEx false (twoParsers ++
      [Event.select (Game.id 0) (Platform.id 0) [codeA],
       Event.select (Game.id 1) (Platform.id 1) [codeB],
       Event.worker [codeB, codeC]])).keyTable = [rowOf codeB] ∧
    (runEx false (twoParsers ++
      [Event.select (Game.id 0) (Platform.id 0) [codeA],
       Event.select (Game.id 1) (Platform.id 1) [codeB],
       Event.worker [codeB, codeC],
       Event.finished 0 true])).keyTable = [rowOf codeC, rowOf codeB] ∧
    (runEx false (twoParsers ++
      [Event.select (Game.id 0) (Platform.id 0) [codeA],
       Event.select (Game.id 1) (Platform.id 1) [codeB],
       Event.worker [codeB, codeC],
       Event.finished 0 true])).commits = [[codeB, codeC]] ∧
    (runEx false (twoParsers ++
      [Event.select (Game.id 0) (Platform.id 0) [codeA],
       Event.select Game.NONE (Platform.id 0) []])).keyTable = [rowOf codeA] ∧
    (runEx false (twoParsers ++
      [Event.select (Game.id 0) (Platform.id 0) [codeA],
       Event.select Game.NONE (Platform.id 0) [],
       Event.finished 0 true])).keyTable = [] := by
  decide

/-- C7, amended: the completion handler has no check of the key.  For every
state and every running run, whatever key it was started for and whatever is
selected now, when it finishes the handler commits the current collection and
renders the key table from it. -/
theorem jobFinished_commits_and_renders_current (s : ControlWindow) (idx : Nat)
    (worked : Bool) (h : idx < s.jobs.length) :
    (jobFinished s idx worked).commits = s.commits ++ [s.collection] ∧
    (jobFinished s idx worked).keyTable = s.collection.reverse.map rowOf ∧
    (jobFinished s idx worked).collection = s.collection := by
  unfold jobFinished finishedHandler
  simp only [h, if_true]
  refine ⟨rfl, ?_, rfl⟩
  exact addToTable_keyTable _

/-- C7, amended, at the state where the run for (G0, P0) is still running and
(G1, P1) is displayed. -/
theorem jobFinished_commits_and_renders_current_witness :
    0 < (runEx false (twoParsers ++
      [Event.select (Game.id 0) (Platform.id 0) [codeA],
       Event.select (Game.id 1) (Platform.id 1) [codeB]])).jobs.length ∧
    (jobFinished (runEx false (twoParsers ++
      [Event.select (Game.id 0) (Platform.id 0) [codeA],
       Event.select (Game.id 1) (Platform.id 1) [codeB]])) 0 true).commits = [[codeB]] :=
  ⟨by decide,
   (jobFinished_commits_and_renders_current (runEx false (twoParsers ++
      [Event.select (Game.id 0) (Platform.id 0) [codeA],
       Event.select (Game.id 1) (Platform.id 1) [codeB]])) 0 true (by decide)).1⟩

/-! ## Registry: proofs -/

theorem findTextFrom_eq_neg_one (items : List ComboItem) (t : String) (i : Nat) :
    findTextFrom items t i = -1 ↔ ∀ it ∈ items, it.text ≠ t := by
  induction items generalizing i with
  | nil => simp [findTextFrom]
  | cons a rest ih =>
    by_cases h : a.text = t
    · simp only [findTextFrom, h, if_true, List.mem_cons]
      constructor
      · intro hi; omega
      · intro hall; exact absurd h (hall a (Or.inl rfl))
    · simp [findTextFrom, h, ih]

theorem findText_append_self (items : List ComboItem) (icon : Option Nat) (t : String) :
    findText (items ++ [⟨icon, t⟩]) t ≠ -1 := by
  unfold findText
  rw [Ne, findTextFrom_eq_neg_one]
  intro hall
  exact hall ⟨icon, t⟩ (by simp) rfl

theorem registerParser_dropDGame_has (sGame : Game → String) (sPlatform : Platform → String)
    (s : ControlWindow) (g : Game) (p : Platform) (q : CodeParserPtr) (icon : Option Nat) :
    findText (registerParser sGame sPlatform s g p q icon).dropDGame (sGame g) ≠ -1 := by
  by_cases h : findText s.dropDGame (sGame g) = -1
  · cases icon <;> simp [registerParser, h, findText_append_self]
  · simp [registerParser, h]

theorem registerParser_dropDPlatform_has (sGame : Game → String)
    (sPlatform : Platform → String) (s : ControlWindow) (g : Game) (p : Platform)
    (q : CodeParserPtr) (icon : Option Nat) :
    findText (registerParser sGame sPlatform s g p q icon).dropDPlatform (sPlatform p) ≠ -1 := by
  by_cases h : findText s.dropDPlatform (sPlatform p) = -1
  · simp [registerParser, h, findText_append_self]
  · simp [registerParser, h]

theorem registerParser_known (sGame : Game → String) (sPlatform : Platform → String)
    (s : ControlWindow) (g : Game) (p : Platform) (q : CodeParserPtr) (icon : Option Nat)
    (hg : findText s.dropDGame (sGame g) ≠ -1)
    (hp : findText s.dropDPlatform (sPlatform p) ≠ -1) :
    registerParser sGame sPlatform s g p q icon = s := by
  simp [registerParser, hg, hp]

/-- C9: for every state of the window (parser map, drop-down lists and all
the rest), every game g, platform p, parsers q1, q2 and icons, registering
(g, p, q1) and then (g, p, q2) gives the same state as registering (g, p, q1)
alone. -/
theorem registerParser_twice (sGame : Game → String) (sPlatform : Platform → String)
    (s : ControlWindow) (g : Game) (p : Platform) (q1 q2 : CodeParserPtr)
    (icon1 icon2 : Option Nat) :
    registerParser sGame sPlatform (registerParser sGame sPlatform s g p q1 icon1) g p q2 icon2 =
      registerParser sGame sPlatform s g p q1 icon1 :=
  registerParser_known sGame sPlatform _ g p q2 icon2
    (registerParser_dropDGame_has sGame sPlatform s g p q1 icon1)
    (registerParser_dropDPlatform_has sGame sPlatform s g p q1 icon1)

/-- C10, the code at a failing input: after (G0, P1) and (G1, P0) have been
registered, the pair (G0, P0) has no parser entry; registerParser(G0, P0, q)
finds both names in the drop-downs, changes nothing, and the pair still has no
entry. -/
theorem registerParser_drops_known_names :
    parserOf (runEx false
      [Event.register (Game.id 0) (Platform.id 1) (some 1) none,
       Event.register (Game.id 1) (Platform.id 0) (some 2) none])
      (Game.id 0) (Platform.id 0) = none ∧
    parserOf (registerParser sGameEx sPlatformEx (runEx false
      [Event.register (Game.id 0) (Platform.id 1) (some 1) none,
       Event.register (Game.id 1) (Platform.id 0) (some 2) none])
      (Game.id 0) (Platform.id 0) (some 3) none) (Game.id 0) (Platform.id 0) = none ∧
    registerParser sGameEx sPlatformEx (runEx false
      [Event.register (Game.id 0) (Platform.id 1) (some 1) none,
       Event.register (Game.id 1) (Platform.id 0) (some 2) none])
      (Game.id 0) (Platform.id 0) (some 3) none =
    runEx false
      [Event.register (Game.id 0) (Platform.id 1) (some 1) none,
       Event.register (Game.id 1) (Platform.id 0) (some 2) none] := by
  decide

/-! ## Sign-in: proofs -/

theorem SameAuth.authInv {s t : ControlWindow} (h : SameAuth s t) (o : Option Bool) (b : Bool)
    (hi : AuthInv s o b) : AuthInv t o b := by
  obtain ⟨h1, h2, h3, h4, h5⟩ := h
  unfold AuthInv at *
  rw [h1, h2, h3, h4, h5]
  exact hi

theorem updateTable_sameAuth (s : ControlWindow) (g : Game) (p : Platform)
    (q : List ShiftCode) : SameAuth s (updateTable s g p q) := by
  unfold SameAuth updateTable
  simp only [addToTable]
  split <;> simp

theorem jobFinished_sameAuth (s : ControlWindow) (i : Nat) (w : Bool) :
    SameAuth s (jobFinished s i w) := by
  unfold SameAuth jobFinished finishedHandler
  simp only [addToTable]
  split <;> simp

theorem workerWrites_sameAuth (s : ControlWindow) (c : List ShiftCode) :
    SameAuth s (workerWrites s c) := by
  unfold SameAuth workerWrites
  split <;> simp

theorem registerParser_sameAuth (sGame : Game → String) (sPlatform : Platform → String)
    (s : ControlWindow) (g : Game) (p : Platform) (q : CodeParserPtr) (icon : Option Nat) :
    SameAuth s (registerParser sGame sPlatform s g p q icon) := by
  simp [SameAuth, registerParser]

theorem redeemReleased_sameAuth (s : ControlWindow) (c : String) (st : Status) :
    SameAuth s (redeemReleased s c st) := by
  unfold SameAuth redeemReleased
  split <;> simp

theorem logging_cb_sameAuth (s : ControlWindow) (str : String) :
    SameAuth s (logging_cb s str) := by
  unfold SameAuth logging_cb
  split <;> simp

theorem step_authInv (sGame : Game → String) (sPlatform : Platform → String)
    (s : ControlWindow) (o : Option Bool) (b : Bool) (e : Event) (hi : AuthInv s o b) :
    AuthInv (step sGame sPlatform s e) (completionStep o e) (pendingStep b e) ∧
    (step sGame sPlatform s e).spinnerDisablesParent = s.spinnerDisablesParent := by
  cases e with
  | register g p q icon =>
    exact ⟨(registerParser_sameAuth sGame sPlatform s g p q icon).authInv o b hi,
      (registerParser_sameAuth sGame sPlatform s g p q icon).2.2.2.2⟩
  | select g p q =>
    exact ⟨(updateTable_sameAuth s g p q).authInv o b hi, (updateTable_sameAuth s g p q).2.2.2.2⟩
  | worker c =>
    exact ⟨(workerWrites_sameAuth s c).authInv o b hi, (workerWrites_sameAuth s c).2.2.2.2⟩
  | finished i w =>
    exact ⟨(jobFinished_sameAuth s i w).authInv o b hi, (jobFinished_sameAuth s i w).2.2.2.2⟩
  | redeem c st =>
    exact ⟨(redeemReleased_sameAuth s c st).authInv o b hi,
      (redeemReleased_sameAuth s c st).2.2.2.2⟩
  | log str =>
    exact ⟨(logging_cb_sameAuth s str).authInv o b hi, (logging_cb_sameAuth s str).2.2.2.2⟩
  | login =>
    obtain ⟨h1, _⟩ := hi
    refine ⟨⟨?_, ?_⟩, rfl⟩
    · simp only [step, login, spinnerStart, completionStep, pendingStep]
      cases hd : s.spinnerDisablesParent <;> simp [hd] at h1 ⊢
      exact h1
    · intro _
      simp [step, login, spinnerStart]
  | loggedin v user =>
    refine ⟨⟨?_, ?_⟩, ?_⟩
    · cases v <;> simp [step, loggedin, spinnerStop, completionStep, pendingStep]
    · intro hb
      simp [pendingStep] at hb
    · cases v <;> simp [step, loggedin, spinnerStop]

theorem run_authInv (sGame : Game → String) (sPlatform : Platform → String)
    (evs : List Event) (s : ControlWindow) (o : Option Bool) (b : Bool) (hi : AuthInv s o b) :
    AuthInv (run sGame sPlatform s evs) (evs.foldl completionStep o) (evs.foldl pendingStep b) ∧
    (run sGame sPlatform s evs).spinnerDisablesParent = s.spinnerDisablesParent := by
  induction evs generalizing s o b with
  | nil => exact ⟨hi, rfl⟩
  | cons e rest ih =>
    have h1 := step_authInv sGame sPlatform s o b e hi
    have h2 := ih (step sGame sPlatform s e) (completionStep o e) (pendingStep b e) h1.1
    refine ⟨h2.1, ?_⟩
    rw [← h1.2]
    exact h2.2

theorem initial_authInv (dp : Bool) : AuthInv (ControlWindow.initial dp) none false := by
  simp [AuthInv, ControlWindow.initial]

theorem reachable_authInv (sGame : Game → String) (sPlatform : Platform → String)
    (dp : Bool) (evs : List Event) :
    AuthInv (run sGame sPlatform (ControlWindow.initial dp) evs)
      (lastCompletion evs) (loginPending evs) ∧
    (run sGame sPlatform (ControlWindow.initial dp) evs).spinnerDisablesParent = dp :=
  run_authInv sGame sPlatform evs (ControlWindow.initial dp) none false (initial_authInv dp)

/-- C8, refuted as stated: a second login() while the first is pending calls
the client's login a second time, whether or not the spinner disables the
login button. -/
theorem second_login_calls_client_again :
    loginPending [Event.login] = true ∧
    (runEx false [Event.login]).loginCalls = 1 ∧
    (runEx false [Event.login, Event.login]).loginCalls = 2 ∧
    (runEx true [Event.login]).loginCalls = 1 ∧
    (runEx true [Event.login, Event.login]).loginCalls = 2 := by
  decide

/-- C8, amended: login() has no check for a pending sign-in.  After every
sequence of events from the initial state that leaves a sign-in pending, a
further login() calls the client's login once more and changes nothing else:
button, spinner and the rest of the window stay as they are. -/
theorem login_while_pending_calls_client (sGame : Game → String)
    (sPlatform : Platform → String) (dp : Bool) (evs : List Event)
    (h : loginPending evs = true) :
    login (run sGame sPlatform (ControlWindow.initial dp) evs) =
      { run sGame sPlatform (ControlWindow.initial dp) evs with
          loginCalls := (run sGame sPlatform (ControlWindow.initial dp) evs).loginCalls + 1 } := by
  obtain ⟨⟨h1, h3⟩, h2⟩ := reachable_authInv sGame sPlatform dp evs
  obtain ⟨hs, ht, hm⟩ := h3 h
  have he : dp = true →
      (run sGame sPlatform (ControlWindow.initial dp) evs).loginButtonEnabled = false := by
    intro hdp
    rw [h2] at h1
    exact h1.mpr (Or.inr ⟨h, hdp⟩)
  generalize run sGame sPlatform (ControlWindow.initial dp) evs = s at *
  cases s
  simp only [login, spinnerStart] at *
  subst hs ht hm
  cases dp <;> simp_all

/-- C8, amended, at the state after one login(). -/
theorem login_while_pending_calls_client_witness :
    loginPending [Event.login] = true ∧
    login (run sGameEx sPlatformEx (ControlWindow.initial false) [Event.login]) =
      { run sGameEx sPlatformEx (ControlWindow.initial false) [Event.login] with
          loginCalls :=
            (run sGameEx sPlatformEx (ControlWindow.initial false) [Event.login]).loginCalls + 1 } :=
  ⟨by decide,
   login_while_pending_calls_client sGameEx sPlatformEx false [Event.login] (by decide)⟩

end Autoshift
